import Mathlib

/-!
Verification development for the FuelQ station app (src/App.tsx).

The core logic of the app — feed normalization (`parseStationData`),
directory matching (`matchStationsWithUKFuels`), member pricing
(`StationCard` price derivation), and filtering/sorting — is embedded
shallowly below.  JavaScript numbers are modelled by `ℚ` with an explicit
`NaN` (`Option ℚ` where `none` is `NaN`); JSON payloads by the inductive
`JValue`; `undefined` by `Option JValue = none`.  The non-finite float
`Infinity` (reachable only by feeding the literal string ("Infinity") to
`parseFloat`) is collapsed onto `NaN`; no claim depends on it.
-/

set_option maxRecDepth 8000

namespace FuelQ

/-- JSON values, as delivered by the external fetch layer after `JSON.parse`. -/
inductive JValue where
  | jnull
  | jbool (b : Bool)
  | jnum (q : ℚ)
  | jstr (s : String)
  | jarr (elems : List JValue)
  | jobj (fields : List (String × JValue))

/-- A JavaScript expression value: either a JSON value or `undefined` (`none`). -/
abbrev JSVal := Option JValue

/-- JavaScript truthiness: `null`, `undefined`, `false`, `0`, `""` are falsy;
objects and arrays (even empty) are truthy. -/
def truthy : JSVal → Bool
  | none => false
  | some .jnull => false
  | some (.jbool b) => b
  | some (.jnum q) => q != 0
  | some (.jstr s) => s != ""
  | some (.jarr _) => true
  | some (.jobj _) => true

/-- Property access `v.k` for a value known not to be `null`/`undefined`
(access on those throws in JS and is handled by the callers explicitly).
Property access on primitives yields `undefined`, as in JS.
Duplicate keys cannot survive `JSON.parse`; lookup takes the first binding. -/
def JValue.field : JValue → String → JSVal
  | .jobj fields, k => fields.lookup k
  | _, _ => none

/-- Property access through a `JSVal` that the caller has already guarded to be
truthy (hence not `null`/`undefined`), or that is accessed with `?.`
(optional chaining never throws, so `none`/`null` yield `undefined`). -/
def fieldOf (v : JSVal) (k : String) : JSVal :=
  match v with
  | some j => j.field k
  | none => none

/-- The JS `a || b` operator. -/
def jsOr (a b : JSVal) : JSVal := if truthy a then a else b

/-- Character-wise upper-casing, the JS `toUpperCase` on the ASCII range
(written over the character list so that evaluation is structural). -/
def strToUpper (s : String) : String := ⟨s.data.map Char.toUpper⟩

/-- Character-wise lower-casing, the JS `toLowerCase` on the ASCII range. -/
def strToLower (s : String) : String := ⟨s.data.map Char.toLower⟩

/-- Decimal digit run to a natural number. -/
def digitsToNat (ds : List Char) : Nat :=
  ds.foldl (fun n c => 10 * n + (c.toNat - 48)) 0

/-- Power of ten as a rational (structural in the exponent). -/
def pow10Q (n : Nat) : ℚ := ((10 ^ n : ℕ) : ℚ)

/-- Integer power of ten as a rational. -/
def zpow10Q (e : Int) : ℚ :=
  match e with
  | .ofNat n => pow10Q n
  | .negSucc n => 1 / pow10Q (n + 1)

/-- Mantissa value from integer-part and fraction-part digit runs. -/
def mantissaOfDigits (ip fp : List Char) : ℚ :=
  (digitsToNat ip : ℚ) + (digitsToNat fp : ℚ) / pow10Q fp.length

/-- Parse an unsigned decimal mantissa prefix (`digits`, `digits.digits`,
`.digits`, `digits.`); returns the value and the unconsumed rest, or `none`
when no digit is found, as JS `parseFloat` does. -/
def parseUnsigned (cs : List Char) : Option (ℚ × List Char) :=
  let ip := cs.takeWhile Char.isDigit
  let rest := cs.dropWhile Char.isDigit
  match rest with
  | '.' :: rest2 =>
    let fp := rest2.takeWhile Char.isDigit
    let rest3 := rest2.dropWhile Char.isDigit
    if ip.isEmpty && fp.isEmpty then none
    else some (mantissaOfDigits ip fp, rest3)
  | _ => if ip.isEmpty then none else some (mantissaOfDigits ip [], rest)

/-- Parse an optionally signed decimal integer (for the exponent part). -/
def parseSignedDigits : List Char → Option Int
  | '+' :: rest =>
    if rest.takeWhile Char.isDigit |>.isEmpty then none
    else some (digitsToNat (rest.takeWhile Char.isDigit) : Int)
  | '-' :: rest =>
    if rest.takeWhile Char.isDigit |>.isEmpty then none
    else some (-(digitsToNat (rest.takeWhile Char.isDigit) : Int))
  | rest =>
    if rest.takeWhile Char.isDigit |>.isEmpty then none
    else some (digitsToNat (rest.takeWhile Char.isDigit) : Int)

/-- Parse an exponent suffix `e±digits` / `E±digits`; an invalid exponent is
simply not consumed (JS `parseFloat ("1e")` is `1`). -/
def parseExpPart : List Char → Option Int
  | 'e' :: rest => parseSignedDigits rest
  | 'E' :: rest => parseSignedDigits rest
  | _ => none

/-- JS `parseFloat` on a string: leading whitespace, optional sign, decimal
mantissa, optional exponent; the longest valid prefix is taken and `none`
models `NaN`.  The `Infinity` literal is collapsed onto `NaN` (`none`). -/
def parseFloatStr (s : String) : Option ℚ :=
  let cs := s.data.dropWhile (fun c => c = ' ' || c = '\t' || c = '\n' || c = '\r')
  let sgn : ℚ := match cs with
    | '-' :: _ => -1
    | _ => 1
  let cs2 := match cs with
    | '-' :: rest => rest
    | '+' :: rest => rest
    | _ => cs
  match parseUnsigned cs2 with
  | none => none
  | some (v, rest) =>
    let e := (parseExpPart rest).getD 0
    some (sgn * v * zpow10Q e)

/-- JS `parseFloat` applied to an arbitrary value: the value is coerced to a
string first.  `String` of an array is the comma-join of its elements, and
`parseFloat` stops at the first comma, so the parse of a non-empty array is
the parse of its head; objects, booleans and `null` stringify to non-numeric
text (`NaN`). -/
def jsParseFloatV : JValue → Option ℚ
  | .jnum q => some q
  | .jstr s => parseFloatStr s
  | .jarr (v :: _) => jsParseFloatV v
  | _ => none

/-- JS `parseFloat` on a `JSVal` (`parseFloat (undefined)` is `NaN`). -/
def jsParseFloat : JSVal → Option ℚ
  | none => none
  | some v => jsParseFloatV v

/-- Value of a price slot of a parsed station: `null`, a number, `NaN`, or a
string (strings occur only through the synthesized national-average entries). -/
inductive Prim where
  | pnull
  | pnum (q : ℚ)
  | pnan
  | pstr (s : String)
  deriving DecidableEq

/-- JS truthiness of a price slot (`null`, `0`, `NaN`, `""` are falsy). -/
def truthyPrim : Prim → Bool
  | .pnull => false
  | .pnum q => q != 0
  | .pnan => false
  | .pstr s => s != ""

/-- Pack a `parseFloat` result into a price slot (`none` is `NaN`). -/
def ofParse : Option ℚ → Prim
  | some q => .pnum q
  | none => .pnan

/-- The `normalizeString` helper of the matching engine: upper-case and strip
every character other than `A`-`Z`, `0`-`9` (this subsumes the `trim` and the
whitespace strip of the source). -/
def normalizeString (s : String) : String :=
  ⟨(strToUpper s).data.filter (fun c => c.isUpper || c.isDigit)⟩

/-- The apostrophe character, written by code point to keep it out of string
literals. -/
def apos : Char := Char.ofNat 39

/-- The literal `SAINSBURY'S` from the supermarket list in the source. -/
def sainsburysApos : String := "SAINSBURY" ++ ⟨[apos]⟩ ++ "S"

/-- The literal `MORRISON'S` from the supermarket list in the source. -/
def morrisonsApos : String := "MORRISON" ++ ⟨[apos]⟩ ++ "S"

/-- The supermarket brand list of `isSupermarketBrand` in the source:
`['ASDA', 'TESCO', 'SAINSBURYS', 'MORRISONS', 'SAINSBURY\'S', 'MORRISON\'S']`. -/
def supermarketList : List String :=
  ["ASDA", "TESCO", "SAINSBURYS", "MORRISONS", sainsburysApos, morrisonsApos]

/-- The `isSupermarketBrand` helper: case-insensitive membership in
`supermarketList`. -/
def isSupermarketBrand (brand : String) : Bool :=
  supermarketList.contains (strToUpper brand)

/-- The fixed weekly pricing policy (`FUELQ_WEEKLY_PRICES`). -/
structure WeeklyPrices where
  diesel : ℚ
  dieselSupermarket : ℚ
  petrolDiscount : ℚ
  petrolDiscountSupermarket : ℚ
  validFrom : String
  validTo : String
  deriving DecidableEq

/-- The concrete weekly policy constant of the source. -/
def FUELQ_WEEKLY_PRICES : WeeklyPrices :=
  { diesel := 130.6
    dieselSupermarket := 133.6
    petrolDiscount := 3
    petrolDiscountSupermarket := 1
    validFrom := "2024-01-22"
    validTo := "2024-01-28" }

/-- A canonical live station as produced by `parseStationData`.  Text fields
are coerced to strings at construction (non-string identity fields in a feed
would stringify at every downstream use anyway). -/
structure Station where
  id : String
  brand : String
  name : String
  address : String
  postcode : String
  town : String
  latitude : ℚ
  longitude : ℚ
  petrol_price : Prim
  diesel_price : Prim
  super_price : Prim
  last_updated : JSVal
  is_open : Bool
  facilities : JSVal

/-- An authoritative UK Fuels directory site as built by `loadUKFuelsSites`
(text fields upper-cased and trimmed there; site numbers are numeric ids). -/
structure Site where
  siteNo : Nat
  altSiteNo : Nat
  latitude : ℚ
  longitude : ℚ
  siteName : String
  street1 : String
  town : String
  postCode : String
  brand : String
  hours24 : Bool
  hgvAccess : Bool
  petrol : Bool
  diesel : Bool
  bands : String
  deriving DecidableEq

/-- A reconciled station as produced by `matchStationsWithUKFuels`: either a
live station merged with its matched directory site, or a synthesized entry
for an unmatched directory site.  `is_open` is absent (`none`) on synthesized
entries; `distance` is attached later by the sorting step. -/
structure RStation where
  id : String
  ukFuelsSiteNo : Nat
  ukFuelsAltSiteNo : Nat
  brand : String
  name : String
  address : String
  town : String
  postcode : String
  latitude : ℚ
  longitude : ℚ
  petrol_price : Prim
  diesel_price : Prim
  super_price : Prim
  hasLivePricing : Bool
  hours24 : Bool
  hgvAccess : Bool
  facilities : List String
  isUKFuelsSite : Bool
  bands : String
  last_updated : JSVal
  is_open : Option Bool
  distance : Option ℚ := none

/-- The national-average prices handed to the matching engine (strings such as
`"1.452"` at the call site, hence `Prim`). -/
structure Averages where
  petrol : Prim
  diesel : Prim
  deriving DecidableEq

/-- The output record of `matchStationsWithUKFuels`. -/
structure MatchResult where
  matched : List RStation
  unmatched : List Station
  liveCount : Nat

/-- The JS `a || b` on strings (used by the merge: `matchedSite.siteName ||
station.name`). -/
def jsOrStr (a b : String) : String := if a != "" then a else b

/-- The JS `p || null` on a price slot (used for the synthesized
national-average prices). -/
def jsOrNullPrim (p : Prim) : Prim := if truthyPrim p then p else .pnull

/-- The facilities list `['24 Hours' && h24, 'HGV Access' && hgv].filter
(Boolean)` built for both merged and synthesized entries. -/
def facilitiesOf (site : Site) : List String :=
  (if site.hours24 then ["24 Hours"] else []) ++
    (if site.hgvAccess then ["HGV Access"] else [])

/-- Merge of a live station with its matched directory site (lines 657-680 of
the source): identity/location from the site, prices from the live feed. -/
def mergeStation (station : Station) (site : Site) : RStation :=
  { id := "matched-" ++ toString site.siteNo ++ "-" ++ station.id
    ukFuelsSiteNo := site.siteNo
    ukFuelsAltSiteNo := site.altSiteNo
    brand := station.brand
    name := jsOrStr site.siteName station.name
    address := jsOrStr site.street1 station.address
    town := jsOrStr site.town station.town
    postcode := jsOrStr site.postCode station.postcode
    latitude := site.latitude
    longitude := site.longitude
    petrol_price := station.petrol_price
    diesel_price := station.diesel_price
    super_price := station.super_price
    hasLivePricing := true
    hours24 := site.hours24
    hgvAccess := site.hgvAccess
    facilities := facilitiesOf site
    isUKFuelsSite := true
    bands := site.bands
    last_updated := station.last_updated
    is_open := some station.is_open
    distance := none }

/-- Synthesized entry for a directory site that no live station claimed
(lines 689-713 of the source).  `now` is the value of
`new Date ().toISOString ()` at the moment the engine runs. -/
def synthStation (now : String) (averagePrices : Option Averages) (site : Site) :
    RStation :=
  { id := "uk-fuels-only-" ++ toString site.siteNo
    ukFuelsSiteNo := site.siteNo
    ukFuelsAltSiteNo := site.altSiteNo
    brand := site.brand
    name := site.siteName
    address := site.street1
    town := site.town
    postcode := site.postCode
    latitude := site.latitude
    longitude := site.longitude
    petrol_price := jsOrNullPrim ((averagePrices.map Averages.petrol).getD .pnull)
    diesel_price := jsOrNullPrim ((averagePrices.map Averages.diesel).getD .pnull)
    super_price := .pnull
    hasLivePricing := false
    hours24 := site.hours24
    hgvAccess := site.hgvAccess
    facilities := facilitiesOf site
    isUKFuelsSite := true
    bands := site.bands
    last_updated := some (.jstr now)
    is_open := none
    distance := none }

/-- The postcode index entry for a normalized postcode: the directory sites
sharing it, in directory order (the source builds a dictionary keyed by the
normalized postcode; an entry exists exactly when this list is non-empty). -/
def postcodeCandidates (sites : List Site) (pc : String) : List Site :=
  sites.filter (fun s => normalizeString s.postCode == pc)

/-- Strategy 1, postcode match (lines 613-620 of the source): a single
candidate is taken; among several, the first with the station's normalized
brand, else the first. -/
def selectPostcodeMatch (stationBrand : String) : List Site → Option Site
  | [] => none
  | [c] => some c
  | c :: cs =>
    some (((c :: cs).find? (fun k => normalizeString k.brand == stationBrand)).getD c)

/-- Contiguous sublist test (`needle` occurs inside the second list). -/
def listInfix (needle : List Char) : List Char → Bool
  | [] => needle.isEmpty
  | c :: rest => needle.isPrefixOf (c :: rest) || listInfix needle rest

/-- String inclusion `a.includes (b)`. -/
def strIncludes (a b : String) : Bool := listInfix b.data a.data

/-- Strategy 2, proximity match (lines 622-645 of the source).  The source
compares `Math.sqrt (dx^2 + dy^2)` against thresholds `0.01` / `0.001` and
against the shrinking best distance; since square root is monotone and every
quantity is non-negative, the scan is carried out here on squared distances
with squared thresholds `1/10000` and `1/1000000`. -/
def proximityMatch (sites : List Site) (slat slng : ℚ) (stationBrand : String) :
    Option Site :=
  (sites.foldl
    (fun acc ukSite =>
      let dsq := (slat - ukSite.latitude) * (slat - ukSite.latitude) +
        (slng - ukSite.longitude) * (slng - ukSite.longitude)
      if dsq < acc.1 then
        let ub := normalizeString ukSite.brand
        let brandsMatch := strIncludes ub stationBrand || strIncludes stationBrand ub
        if dsq < 1 / 1000000 || brandsMatch then (dsq, some ukSite) else acc
      else acc)
    ((1 : ℚ) / 10000, (none : Option Site))).2

/-- Strategy 3, brand+town fallback (lines 647-652 of the source): first site
with the station's normalized brand and town (callers guard both non-empty;
normalized keys contain no underscore, so the composite key is injective). -/
def brandTownMatch (sites : List Site) (stationBrand stationTown : String) :
    Option Site :=
  (sites.filter (fun s =>
    normalizeString s.brand == stationBrand && normalizeString s.town == stationTown)).head?

/-- Per-station matching, strategies in order with first success (lines
605-652 of the source). -/
def matchOneStation (sites : List Site) (station : Station) : Option Site :=
  let stationPostcode := normalizeString station.postcode
  let stationBrand := normalizeString station.brand
  let stationTown := normalizeString station.town
  let pcCands :=
    if stationPostcode != "" then postcodeCandidates sites stationPostcode else []
  match selectPostcodeMatch stationBrand pcCands with
  | some site => some site
  | none =>
    match
      (if station.latitude != 0 && station.longitude != 0 then
        proximityMatch sites station.latitude station.longitude stationBrand
      else none) with
    | some site => some site
    | none =>
      if stationBrand != "" && stationTown != "" then
        brandTownMatch sites stationBrand stationTown
      else none

/-- The live-station pass of the engine: accumulates merged entries, unmatched
stations, and the claimed site numbers, in input order. -/
def processLive (sites : List Site) (live : List Station) :
    List RStation × List Station × List Nat :=
  live.foldl
    (fun acc station =>
      match matchOneStation sites station with
      | some site => (acc.1 ++ [mergeStation station site], acc.2.1, acc.2.2 ++ [site.siteNo])
      | none => (acc.1, acc.2.1 ++ [station], acc.2.2))
    ([], [], [])

/-- The claimed-site set after the live pass (`matchedUKFuelsSiteIds`). -/
def claimedSiteNos (live : List Station) (sites : List Site) : List Nat :=
  (processLive sites live).2.2

/-- The matching engine `matchStationsWithUKFuels (liveStations, ukFuelsSites,
averagePrices)`.  `now` models the `new Date ().toISOString ()` read on line
712 when synthesized entries are stamped.  The synthesis pass appends, in
directory order, the entries of unclaimed sites whose petrol or diesel
capability flag is set (build-then-push-if in the source equals
filter-then-map). -/
def matchStationsWithUKFuels (now : String) (liveStations : List Station)
    (ukFuelsSites : List Site) (averagePrices : Option Averages) : MatchResult :=
  let r := processLive ukFuelsSites liveStations
  let synthesized :=
    (ukFuelsSites.filter (fun s =>
      !(r.2.2.contains s.siteNo) && (s.petrol || s.diesel))).map
      (synthStation now averagePrices)
  let matched := r.1 ++ synthesized
  { matched := matched
    unmatched := r.2.1
    liveCount := (matched.filter (fun s => s.hasLivePricing == true)).length }

/-- JS `parseFloat` applied to a price slot. -/
def parseFloatPrim : Prim → Option ℚ
  | .pnum q => some q
  | .pstr s => parseFloatStr s
  | .pnull => none
  | .pnan => none

/-- The `StationCard` pump petrol price in pence: `station.petrol_price ?
parseFloat (station.petrol_price) * 100 : null` (line 1204 of the source). -/
def pumpPetrolPPL (station : RStation) : Prim :=
  if truthyPrim station.petrol_price then
    ofParse ((parseFloatPrim station.petrol_price).map (fun q => q * 100))
  else .pnull

/-- The `StationCard` pump diesel price in pence (line 1205 of the source). -/
def pumpDieselPPL (station : RStation) : Prim :=
  if truthyPrim station.diesel_price then
    ofParse ((parseFloatPrim station.diesel_price).map (fun q => q * 100))
  else .pnull

/-- The member diesel price shown on a `StationCard` (line 1208 of the
source): the flat weekly schedule price, by supermarket membership only. -/
def dieselFuelQPrice (station : RStation) : ℚ :=
  if isSupermarketBrand station.brand then FUELQ_WEEKLY_PRICES.dieselSupermarket
  else FUELQ_WEEKLY_PRICES.diesel

/-- The petrol discount applicable to a station (line 1209 of the source). -/
def petrolDiscountFor (station : RStation) : ℚ :=
  if isSupermarketBrand station.brand then FUELQ_WEEKLY_PRICES.petrolDiscountSupermarket
  else FUELQ_WEEKLY_PRICES.petrolDiscount

/-- The member petrol price shown on a `StationCard`: `pumpPetrolPPL ?
pumpPetrolPPL - petrolDiscount : null` (line 1210 of the source); a `NaN` or
zero pump value is falsy, yielding `null`. -/
def fuelqPetrolPPL (station : RStation) : Prim :=
  let pump := pumpPetrolPPL station
  if truthyPrim pump then
    match pump with
    | .pnum q => .pnum (q - petrolDiscountFor station)
    | p => p
  else .pnull

mutual

/-- JS `String (v)` coercion, as used by the template literals that build
station ids.  Non-integer numbers print in the `ℚ` notation, an approximation
of JS decimal notation that no claim depends on. -/
def jsValToStringV : JValue → String
  | .jnull => "null"
  | .jbool true => "true"
  | .jbool false => "false"
  | .jnum q => if q.den == 1 then toString q.num else toString q
  | .jstr s => s
  | .jarr xs => String.intercalate (",") (jsArrParts xs)
  | .jobj _ => "[object Object]"

/-- Elements of an array as joined by `Array.prototype.join` (`null` joins as
the empty string). -/
def jsArrParts : List JValue → List String
  | [] => []
  | .jnull :: rest => "" :: jsArrParts rest
  | v :: rest => jsValToStringV v :: jsArrParts rest

end

/-- JS `String (v)` on a possibly-undefined value. -/
def jsValToString : JSVal → String
  | none => "undefined"
  | some v => jsValToStringV v

/-- Text-field extraction: the JS `chain || fallbackText` pattern of the
normalizer, stringifying whatever truthy value the chain produced. -/
def textField (v : JSVal) (fallbackText : String) : String :=
  if truthy v then jsValToString v else fallbackText

/-- Truthiness plus `typeof x === 'object'` (arrays included; `null` is
excluded by the truthiness conjunct in the source guard). -/
def isObjectLike : JSVal → Bool
  | some (.jobj _) => true
  | some (.jarr _) => true
  | _ => false

/-- Coordinate extraction of the normalizer (lines 765-786 of the source),
shape precedence `location` → flat `latitude`/`longitude` → `lat`+`lng`-like →
`geo` → `coords`; the trailing `isNaN` guard maps an unparsable value to 0. -/
def parseRecordCoords (st : JValue) : ℚ × ℚ :=
  let loc := st.field ("location")
  let raw : Option ℚ × Option ℚ :=
    if truthy loc && isObjectLike loc then
      (jsParseFloat (jsOr (fieldOf loc ("latitude")) (jsOr (fieldOf loc ("lat")) (some (.jnum 0)))),
       jsParseFloat (jsOr (fieldOf loc ("longitude"))
         (jsOr (fieldOf loc ("lng")) (jsOr (fieldOf loc ("lon")) (some (.jnum 0))))))
    else if truthy (st.field ("latitude")) && truthy (st.field ("longitude")) then
      (jsParseFloat (st.field ("latitude")), jsParseFloat (st.field ("longitude")))
    else if truthy (st.field ("lat")) &&
        truthy (jsOr (st.field ("lng")) (jsOr (st.field ("lon")) (st.field ("long")))) then
      (jsParseFloat (st.field ("lat")),
       jsParseFloat (jsOr (st.field ("lng")) (jsOr (st.field ("lon")) (st.field ("long")))))
    else if truthy (st.field ("geo")) then
      (jsParseFloat (jsOr (fieldOf (st.field ("geo")) "lat") (some (.jnum 0))),
       jsParseFloat (jsOr (fieldOf (st.field ("geo")) "lng")
         (jsOr (fieldOf (st.field ("geo")) "lon") (some (.jnum 0)))))
    else if truthy (st.field ("coords")) then
      (jsParseFloat (jsOr (fieldOf (st.field ("coords")) "latitude")
         (jsOr (fieldOf (st.field ("coords")) "lat") (some (.jnum 0)))),
       jsParseFloat (jsOr (fieldOf (st.field ("coords")) "longitude")
         (jsOr (fieldOf (st.field ("coords")) "lng") (some (.jnum 0)))))
    else (some 0, some 0)
  (raw.1.getD 0, raw.2.getD 0)

/-- Price step 1 of the normalizer, the `station.prices` block (lines 805-827
of the source): raw codes `E10`/`E5`/`B7` in pence under a `typeof number`
check, `SDV` only into a still-falsy diesel slot, then the human-readable
aliases `unleaded`/`diesel`/`super_unleaded` in pounds as unconditional
overrides. -/
def applyPricesBlock (st : JValue) (acc : Prim × Prim × Prim) : Prim × Prim × Prim :=
  let prices := st.field ("prices")
  if truthy prices then
    let p1 := match fieldOf prices ("E10") with
      | some (.jnum q) => Prim.pnum (q / 100)
      | _ => acc.1
    let su1 := match fieldOf prices ("E5") with
      | some (.jnum q) => Prim.pnum (q / 100)
      | _ => acc.2.2
    let d1 := match fieldOf prices ("B7") with
      | some (.jnum q) => Prim.pnum (q / 100)
      | _ => acc.2.1
    let d2 := match fieldOf prices ("SDV") with
      | some (.jnum q) => if !truthyPrim d1 then Prim.pnum (q / 100) else d1
      | _ => d1
    let p2 := if truthy (fieldOf prices ("unleaded")) then
        ofParse (jsParseFloat (fieldOf prices ("unleaded"))) else p1
    let d3 := if truthy (fieldOf prices ("diesel")) then
        ofParse (jsParseFloat (fieldOf prices ("diesel"))) else d2
    let su2 := if truthy (fieldOf prices ("super_unleaded")) then
        ofParse (jsParseFloat (fieldOf prices ("super_unleaded"))) else su1
    (p2, d3, su2)
  else acc

/-- Price step 2, one entry of the `fuel_type_services` array (lines 829-839
of the source).  A `null` entry throws on the `fuel.fuel_type` access, which
aborts this record (`.error`). -/
def applyFuelTypeService (acc : Prim × Prim × Prim) (fuel : JValue) :
    Except Unit (Prim × Prim × Prim) :=
  match fuel with
  | .jnull => .error ()
  | _ =>
    let price := (jsParseFloat (fuel.field ("price"))).map (fun q => q / 100)
    match fuel.field ("fuel_type") with
    | some (.jstr s) =>
      if s == "ULDS" || s == "Unleaded" then .ok (ofParse price, acc.2.1, acc.2.2)
      else if s == "ULSD" || s == "Diesel" then .ok (acc.1, ofParse price, acc.2.2)
      else if s == "SUL" || s == "Super Unleaded" then .ok (acc.1, acc.2.1, ofParse price)
      else .ok acc
    | _ => .ok acc

/-- Price step 3, the `fuelPrices` block (lines 841-845 of the source):
`E10`/`B7`/`E5` in pence, unconditional overwrites under truthiness guards. -/
def applyFuelPricesBlock (st : JValue) (acc : Prim × Prim × Prim) : Prim × Prim × Prim :=
  let fp := st.field ("fuelPrices")
  if truthy fp then
    let p1 := if truthy (fieldOf fp ("E10")) then
        ofParse ((jsParseFloat (fieldOf fp ("E10"))).map (fun q => q / 100)) else acc.1
    let d1 := if truthy (fieldOf fp ("B7")) then
        ofParse ((jsParseFloat (fieldOf fp ("B7"))).map (fun q => q / 100)) else acc.2.1
    let su1 := if truthy (fieldOf fp ("E5")) then
        ofParse ((jsParseFloat (fieldOf fp ("E5"))).map (fun q => q / 100)) else acc.2.2
    (p1, d1, su1)
  else acc

/-- Price step 4, the final fallback cascade (lines 847-860 of the source),
entered only when both petrol and diesel slots are still falsy; inside it each
assignment overwrites the previous one. -/
def applyFallbackBlock (st : JValue) (acc : Prim × Prim × Prim) : Prim × Prim × Prim :=
  if !truthyPrim acc.1 && !truthyPrim acc.2.1 then
    let p1 := if truthy (st.field ("unleaded")) then
        ofParse ((jsParseFloat (st.field ("unleaded"))).map (fun q => q / 100)) else acc.1
    let d1 := if truthy (st.field ("diesel")) then
        ofParse ((jsParseFloat (st.field ("diesel"))).map (fun q => q / 100)) else acc.2.1
    let su1 := if truthy (st.field ("super_unleaded")) then
        ofParse ((jsParseFloat (st.field ("super_unleaded"))).map (fun q => q / 100)) else acc.2.2
    let p2 := if truthy (st.field ("unleaded_price")) then
        ofParse (jsParseFloat (st.field ("unleaded_price"))) else p1
    let d2 := if truthy (st.field ("diesel_price")) then
        ofParse (jsParseFloat (st.field ("diesel_price"))) else d1
    let su2 := if truthy (st.field ("super_unleaded_price")) then
        ofParse (jsParseFloat (st.field ("super_unleaded_price"))) else su1
    let p3 := if truthy (st.field ("petrol")) then
        ofParse (jsParseFloat (st.field ("petrol"))) else p2
    let p4 := if truthy (st.field ("petrol_price")) then
        ofParse (jsParseFloat (st.field ("petrol_price"))) else p3
    let fps := st.field ("fuel_prices")
    let p5 := if truthy (fieldOf fps ("unleaded")) then
        ofParse (jsParseFloat (fieldOf fps ("unleaded"))) else p4
    let d3 := if truthy (fieldOf fps ("diesel")) then
        ofParse (jsParseFloat (fieldOf fps ("diesel"))) else d2
    (p5, d3, su2)
  else acc

/-- The `typeof slot === 'string'` conversion (lines 862-870 of the source):
`parseFloat (slot) || null`.  Every earlier extraction step stores numbers, so
string slots cannot actually occur; the step is kept for fidelity. -/
def convertStringPrice : Prim → Prim
  | .pstr s =>
    match parseFloatStr s with
    | some q => if q == 0 then .pnull else .pnum q
    | none => .pnull
  | p => p

/-- Identifier suffix `station.id || station.site_id || station.store_id ||
station.location_id || station.number || index` stringified by the template
literal. -/
def parsedIdSuffix (st : JValue) (idx : Nat) : String :=
  let cand := jsOr (st.field ("id")) (jsOr (st.field ("site_id")) (jsOr (st.field ("store_id"))
    (jsOr (st.field ("location_id")) (st.field ("number")))))
  if truthy cand then jsValToString cand else toString idx

/-- Per-record normalization (lines 763-877 of the source), `.error ()` for a
record whose processing throws (a `null` record, or a truthy non-array
`fuel_type_services`); such a record is skipped by the surrounding catch. -/
def parseRecord (retailerName nowISO : String) (idx : Nat) (st : JValue) :
    Except Unit Station :=
  match st with
  | .jnull => .error ()
  | _ =>
    let coords := parseRecordCoords st
    let pd1 := applyPricesBlock st (.pnull, .pnull, .pnull)
    let ftsRes : Except Unit (Prim × Prim × Prim) :=
      (let fts := st.field ("fuel_type_services")
       if truthy fts then
         match fts with
         | some (.jarr xs) => xs.foldlM applyFuelTypeService pd1
         | _ => .error ()
       else .ok pd1)
    match ftsRes with
    | .error e => .error e
    | .ok pd2 =>
      let pd4 := applyFallbackBlock st (applyFuelPricesBlock st pd2)
      .ok
        { id := retailerName ++ "-" ++ parsedIdSuffix st idx
          brand := textField (jsOr (st.field ("brand")) (st.field ("brand_name"))) retailerName
          name := textField (jsOr (st.field ("name")) (jsOr (st.field ("site_name"))
            (jsOr (st.field ("store_name")) (jsOr (st.field ("trading_name"))
              (st.field ("location_name")))))) (retailerName ++ " Station")
          address := textField (jsOr (st.field ("address")) (jsOr (st.field ("street"))
            (jsOr (st.field ("street_address")) (st.field ("address_line_1"))))) ""
          postcode := textField (jsOr (st.field ("postcode")) (jsOr (st.field ("post_code"))
            (jsOr (st.field ("postal_code")) (st.field ("zip"))))) ""
          town := textField (jsOr (st.field ("town")) (jsOr (st.field ("city"))
            (st.field ("locality")))) ""
          latitude := coords.1
          longitude := coords.2
          petrol_price := convertStringPrice pd4.1
          diesel_price := convertStringPrice pd4.2.1
          super_price := convertStringPrice pd4.2.2
          last_updated := jsOr (st.field ("last_updated"))
            (jsOr (st.field ("updated_at")) (some (.jstr nowISO)))
          is_open :=
            (match st.field ("is_open") with
              | some (.jbool false) => false
              | _ => true) &&
            (match st.field ("status") with
              | some (.jstr s) => s != "closed"
              | _ => true)
          facilities := jsOr (st.field ("facilities")) (jsOr (st.field ("amenities"))
            (jsOr (st.field ("services")) (some (.jarr [])))) }

/-- The record-list discovery keys probed in fixed order (lines 734-751 of the
source). -/
def knownListKeys : List String :=
  ["stations", "data", "results", "fuel_prices", "items", "sites", "locations",
    "stores", "forecourts"]

/-- Record-list discovery (lines 732-761 of the source): first truthy known
key, else the payload itself when it is an array, else the first key holding a
non-empty array, else the initial empty array.  Primitive payloads have no
array-valued enumerable keys. -/
def discoverStationArray (data : JValue) : JValue :=
  match knownListKeys.find? (fun k => truthy (data.field k)) with
  | some k => (data.field k).getD .jnull
  | none =>
    match data with
    | .jarr _ => data
    | .jobj fields =>
      ((fields.find? (fun kv =>
        match kv.2 with
        | .jarr (_ :: _) => true
        | _ => false)).map Prod.snd).getD (.jarr [])
    | _ => .jarr []

/-- The retention rule of the normalizer (line 872 of the source): keep a
record only when some price slot is truthy. -/
def retainStation (s : Station) : Bool :=
  truthyPrim s.petrol_price || truthyPrim s.diesel_price || truthyPrim s.super_price

/-- The normalizer loop over the discovered record list: parse each record
with its positional index, skip throwing records, retain only priced ones. -/
def parseRecordsList (retailerName nowISO : String) (xs : List JValue) : List Station :=
  xs.enum.filterMap (fun p =>
    match parseRecord retailerName nowISO p.1 p.2 with
    | .ok s => if retainStation s then some s else none
    | .error _ => none)

/-- The normalizer `parseStationData (data, retailerName)`.  A `null` payload
throws on the first key probe and the outer catch returns the empty
accumulator; a truthy non-array discovery result throws on `.forEach` with the
same effect; per-record throws are caught individually and skip only that
record.  Totality of this function is the model of the never-raises
boundary. -/
def parseStationData (data : JValue) (retailerName nowISO : String) : List Station :=
  match data with
  | .jnull => []
  | _ =>
    match discoverStationArray data with
    | .jarr xs => parseRecordsList retailerName nowISO xs
    | _ => []

/-- The browser math primitives used by `calculateDistance`, abstracted: the
embedding treats `Math.sin`, `Math.cos`, `Math.sqrt`, `Math.atan2` and
`Math.PI` as uninterpreted rational operations. -/
structure GeoModel where
  sin : ℚ → ℚ
  cos : ℚ → ℚ
  sqrt : ℚ → ℚ
  atan2 : ℚ → ℚ → ℚ
  pi : ℚ

/-- The reference location used for distance annotation. -/
structure UserLocation where
  latitude : ℚ
  longitude : ℚ

/-- The haversine display distance `calculateDistance` (lines 1070-1081 of the
source), Earth radius 6371 km, over the abstract math primitives. -/
def calculateDistance (M : GeoModel) (lat1 lon1 lat2 lon2 : ℚ) : ℚ :=
  let dLat := (lat2 - lat1) * M.pi / 180
  let dLon := (lon2 - lon1) * M.pi / 180
  let a := M.sin (dLat / 2) * M.sin (dLat / 2) +
    M.cos (lat1 * M.pi / 180) * M.cos (lat2 * M.pi / 180) *
      M.sin (dLon / 2) * M.sin (dLon / 2)
  let c := 2 * M.atan2 (M.sqrt a) (M.sqrt (1 - a))
  6371 * c

/-- Distance annotation of one displayed station (fresh on every sort pass). -/
def annotateDistance (M : GeoModel) (loc : UserLocation) (station : RStation) :
    RStation :=
  { station with
    distance := some (calculateDistance M loc.latitude loc.longitude
      station.latitude station.longitude) }

/-- The sort comparator `(a, b) => a.distance - b.distance`: over exact
rationals this is the ≤ order on the annotated distances (every annotated
record carries `some` distance; `getD` is a total-function reading). -/
def distLE (a b : RStation) : Bool := decide (a.distance.getD 0 ≤ b.distance.getD 0)

/-- The `sortStationsByDistance` step (lines 1089-1099 of the source):
annotate every station with a fresh distance, then sort ascending.  JS
`Array.prototype.sort` is a stable sort, modelled by `mergeSort`. -/
def sortStationsByDistance (M : GeoModel) (loc : UserLocation)
    (stations : List RStation) : List RStation :=
  (stations.map (annotateDistance M loc)).mergeSort distLE

/-- The search predicate of the filter effect (lines 1045-1052 of the source);
`query` is already lower-cased by the caller. -/
def matchesSearch (query : String) (s : RStation) : Bool :=
  strIncludes (strToLower s.name) query || strIncludes (strToLower s.brand) query ||
    strIncludes (strToLower s.address) query || strIncludes (strToLower s.postcode) query ||
    strIncludes (strToLower s.town) query ||
    (s.ukFuelsSiteNo != 0 && strIncludes (toString s.ukFuelsSiteNo) query)

/-- The filter/sort effect (lines 1037-1061 of the source) on the displayed
list: empty input displays empty; a non-empty query filters; then the fresh
distance sort runs. -/
def filterAndSortStations (M : GeoModel) (loc : UserLocation)
    (searchQuery : String) (stations : List RStation) : List RStation :=
  if stations.length > 0 then
    let filtered :=
      if searchQuery != "" then stations.filter (matchesSearch (strToLower searchQuery))
      else stations
    sortStationsByDistance M loc filtered
  else []

/-- Erase the clock-dependent `last_updated` stamp of a reconciled station
(used to compare two engine runs up to the synthesized timestamps). -/
def clearTimestamp (s : RStation) : RStation := { s with last_updated := none }

/-- A mixed-case spelling of the apostrophe variant of the Sainsburys brand. -/
def mixedSainsburys : String := "Sainsbury" ++ ⟨[apos]⟩ ++ "s"

/-- A concrete reconciled TESCO station card with pump petrol price 1.459
pounds per litre. -/
def tescoCard : RStation :=
  { id := "matched-42-Tesco-1"
    ukFuelsSiteNo := 42
    ukFuelsAltSiteNo := 0
    brand := "TESCO"
    name := "TESCO SLOUGH"
    address := "HIGH ST"
    town := "SLOUGH"
    postcode := "SL1 1AA"
    latitude := 51
    longitude := 0
    petrol_price := .pnum (1459 / 1000)
    diesel_price := .pnum (1509 / 1000)
    super_price := .pnull
    hasLivePricing := true
    hours24 := false
    hgvAccess := false
    facilities := []
    isUKFuelsSite := true
    bands := ""
    last_updated := none
    is_open := some true
    distance := none }

/-- The same card with a pump petrol price of exactly zero (a non-null price;
reachable from a feed record carrying `prices.E10 = 0`). -/
def tescoZeroCard : RStation := { tescoCard with petrol_price := .pnum 0 }

/-- A directory site with petrol capability and no matching live station. -/
def bpSiteC2 : Site :=
  { siteNo := 7
    altSiteNo := 0
    latitude := 51
    longitude := 0
    siteName := "BP SLOUGH"
    street1 := "BATH RD"
    town := "SLOUGH"
    postCode := "SL1 3UE"
    brand := "BP"
    hours24 := false
    hgvAccess := false
    petrol := true
    diesel := true
    bands := "" }

/-- First engine clock reading for the determinism counterexample. -/
def tsA : String := "2024-01-01T00:00:00.000Z"

/-- Second engine clock reading for the determinism counterexample. -/
def tsB : String := "2024-01-02T00:00:00.000Z"

/-- A directory site used by the synthesis witness. -/
def shellSiteC5 : Site :=
  { siteNo := 9
    altSiteNo := 0
    latitude := 52
    longitude := -1
    siteName := "SHELL OXFORD"
    street1 := "A40"
    town := "OXFORD"
    postCode := "OX1 1AA"
    brand := "SHELL"
    hours24 := true
    hgvAccess := false
    petrol := true
    diesel := false
    bands := "" }

/-- Two directory sites sharing one postcode, for the postcode-priority
witness: the station brand picks the second. -/
def essoSiteC6 : Site :=
  { siteNo := 11
    altSiteNo := 0
    latitude := 53
    longitude := -2
    siteName := "ESSO STOCKPORT"
    street1 := ""
    town := "STOCKPORT"
    postCode := "AB1 2CD"
    brand := "ESSO"
    hours24 := false
    hgvAccess := false
    petrol := true
    diesel := true
    bands := "" }

/-- Companion site of `essoSiteC6` with the station's brand. -/
def shellSiteC6 : Site :=
  { essoSiteC6 with
    siteNo := 12
    siteName := "SHELL STOCKPORT"
    brand := "SHELL" }

/-- A live station whose normalized postcode hits the shared index entry. -/
def stationC6 : Station :=
  { id := "Shell-5"
    brand := "Shell"
    name := "Shell Stockport"
    address := ""
    postcode := "ab1 2cd"
    town := "Stockport"
    latitude := 0
    longitude := 0
    petrol_price := .pnum (150 / 100)
    diesel_price := .pnull
    super_price := .pnull
    last_updated := none
    is_open := true
    facilities := none }

/-- The single directory site of the duplicate-claim input. -/
def siteC7 : Site :=
  { siteNo := 42
    altSiteNo := 0
    latitude := 51
    longitude := 0
    siteName := "TESCO WESTMINSTER"
    street1 := ""
    town := "LONDON"
    postCode := "SW1A1AA"
    brand := "TESCO"
    hours24 := false
    hgvAccess := false
    petrol := true
    diesel := true
    bands := "" }

/-- First live station matching `siteC7` by postcode. -/
def stationC7a : Station :=
  { id := "Tesco-1"
    brand := "TESCO"
    name := "Tesco A"
    address := ""
    postcode := "SW1A 1AA"
    town := "London"
    latitude := 0
    longitude := 0
    petrol_price := .pnum (1459 / 1000)
    diesel_price := .pnull
    super_price := .pnull
    last_updated := none
    is_open := true
    facilities := none }

/-- Second, distinct live station matching the same site by postcode. -/
def stationC7b : Station :=
  { stationC7a with
    id := "Tesco-2"
    name := "Tesco B"
    diesel_price := .pnum (1509 / 1000) }

/-- A feed record whose only extracted price slot is exactly zero. -/
def zeroPriceRec : JValue := .jobj [("prices", .jobj [("E10", .jnum 0)])]

/-- A payload holding exactly the zero-price record. -/
def zeroPricePayload : JValue := .jobj [("stations", .jarr [zeroPriceRec])]

/-- A feed record with a diesel price (`prices.B7` in pence). -/
def dieselRecC4 : JValue := .jobj [("prices", .jobj [("B7", .jnum 140)])]

/-- A payload holding exactly `dieselRecC4`. -/
def payloadC4 : JValue := .jobj [("stations", .jarr [dieselRecC4])]

/-- The canonical station the normalizer produces from `payloadC4` for
retailer Esso at normalization time `T`. -/
def stationC4 : Station :=
  { id := "Esso-0"
    brand := "Esso"
    name := "Esso Station"
    address := ""
    postcode := ""
    town := ""
    latitude := 0
    longitude := 0
    petrol_price := .pnull
    diesel_price := .pnum (7 / 5)
    super_price := .pnull
    last_updated := some (.jstr ("T"))
    is_open := true
    facilities := some (.jarr []) }

/-- A batch with one malformed (null) record followed by a good one. -/
def batchC9 : JValue :=
  .jobj [("sites", .jarr [.jnull, .jobj [("prices", .jobj [("B7", .jnum 150)])]])]

/-- The single station surviving from `batchC9` (positional index 1). -/
def stationC9 : Station :=
  { id := "Jet-1"
    brand := "Jet"
    name := "Jet Station"
    address := ""
    postcode := ""
    town := ""
    latitude := 0
    longitude := 0
    petrol_price := .pnull
    diesel_price := .pnum (3 / 2)
    super_price := .pnull
    last_updated := some (.jstr ("T"))
    is_open := true
    facilities := some (.jarr []) }

/-- A payload of unrecognized shape: no known key, not an array, no non-empty
array value. -/
def unrecognizedPayload : JValue :=
  .jobj [("message", .jstr ("service unavailable")), ("ok", .jbool false)]

/-- A trivial math model for the filter/sort witness. -/
def geoM0 : GeoModel :=
  { sin := fun _ => 0
    cos := fun _ => 0
    sqrt := fun _ => 0
    atan2 := fun _ _ => 0
    pi := 3 }

/-- A reference location for the filter/sort witness. -/
def loc0 : UserLocation := { latitude := 51, longitude := 0 }

/-- A displayed station for the filter/sort witness. -/
def rstC8 : RStation :=
  { id := "uk-fuels-only-9"
    ukFuelsSiteNo := 9
    ukFuelsAltSiteNo := 0
    brand := "SHELL"
    name := "SHELL OXFORD"
    address := "A40"
    town := "OXFORD"
    postcode := "OX1 1AA"
    latitude := 52
    longitude := -1
    petrol_price := .pstr ("1.452")
    diesel_price := .pstr ("1.534")
    super_price := .pnull
    hasLivePricing := false
    hours24 := true
    hgvAccess := false
    facilities := ["24 Hours"]
    isUKFuelsSite := true
    bands := ""
    last_updated := none
    is_open := none
    distance := none }

/-- A truthy price slot is not the null slot. -/
theorem truthyPrim_ne_pnull {p : Prim} (h : truthyPrim p = true) : p ≠ Prim.pnull := by
  cases p <;> simp_all [truthyPrim]

/-- Every station surviving the normalizer loop passed the retention gate. -/
theorem retain_of_mem_parseRecordsList {r t : String} {xs : List JValue} {s : Station}
    (h : s ∈ parseRecordsList r t xs) : retainStation s = true := by
  obtain ⟨p, hpmem, hf⟩ := List.mem_filterMap.mp h
  cases hp : parseRecord r t p.1 p.2 with
  | ok st =>
    rw [hp] at hf
    by_cases hr : retainStation st
    · simp only [if_pos hr] at hf
      cases hf
      exact hr
    · simp [hr] at hf
  | error e =>
    rw [hp] at hf
    simp at hf

/-- Every station in the normalizer output passed the retention gate. -/
theorem retain_of_mem_parseStationData {data : JValue} {r t : String} {s : Station}
    (h : s ∈ parseStationData data r t) : retainStation s = true := by
  cases data
  case jnull => simp [parseStationData] at h
  all_goals
    simp only [parseStationData] at h
  all_goals
    generalize hd : discoverStationArray _ = arr at h
  all_goals
    cases arr
  all_goals
    first
    | exact retain_of_mem_parseRecordsList h
    | simp only [List.not_mem_nil] at h

/-- C10: the retention check of the normalizer tests truthiness, not
non-nullness.  A record whose only extracted price is the number 0 (a
non-null slot, here from `prices.E10 = 0`) is discarded: the normalizer
output for the one-record payload is empty. -/
theorem zero_price_record_discarded :
    (parseRecord ("Tesco") ("T") 0 zeroPriceRec).map Station.petrol_price
        = Except.ok (Prim.pnum 0) ∧
      Prim.pnum 0 ≠ Prim.pnull ∧
      parseStationData zeroPricePayload ("Tesco") ("T") = [] :=
  ⟨by with_unfolding_all rfl, fun h => Prim.noConfusion h, by with_unfolding_all rfl⟩

/-- C3 counterexample: the pricing engine classifies the apostrophe spelling
of Sainsburys as a supermarket although its upper-cased form is outside the
four-element set named by the claim. -/
theorem supermarket_set_counterexample :
    isSupermarketBrand mixedSainsburys = true ∧
      strToUpper mixedSainsburys ∉ (["ASDA", "TESCO", "SAINSBURYS", "MORRISONS"] : List String) :=
  ⟨by decide, by decide⟩

/-- C3 amended: the supermarket classifier is exact case-insensitive
membership in the six-element source list, the four plain names plus the two
apostrophe spellings. -/
theorem supermarket_set_is_six (brand : String) :
    isSupermarketBrand brand =
      (["ASDA", "TESCO", "SAINSBURYS", "MORRISONS", sainsburysApos,
        morrisonsApos].contains (strToUpper brand)) := rfl

/-- C7: the claimed-site set is recorded after each match but never checked
before matching: two distinct live stations that both postcode-match the one
directory site yield two reconciled entries carrying site number 42. -/
theorem duplicate_site_claims_possible :
    stationC7a ≠ stationC7b ∧
      ((matchStationsWithUKFuels ("T") [stationC7a, stationC7b] [siteC7] none).matched.map
        (fun s => s.ukFuelsSiteNo)) = [42, 42] := by
  refine ⟨fun h => absurd (congrArg Station.id h) (by decide), ?_⟩
  exact of_decide_eq_true (by with_unfolding_all rfl)

/-- C1 (amended): the member diesel price is the flat weekly schedule price by
supermarket membership, independent of the pump diesel price; the member
petrol price is the pump price in pence minus the applicable discount when
the pump petrol price exists and is nonzero, and is null when the pump petrol
price is absent or exactly zero (the source gates on truthiness); for the
TESCO card with pump petrol 1.459 pounds the member price is 144.9 pence. -/
theorem station_card_pricing :
    (∀ station : RStation,
      dieselFuelQPrice station =
          (if isSupermarketBrand station.brand then FUELQ_WEEKLY_PRICES.dieselSupermarket
            else FUELQ_WEEKLY_PRICES.diesel) ∧
        (∀ d, dieselFuelQPrice { station with diesel_price := d } = dieselFuelQPrice station) ∧
        (∀ q : ℚ, station.petrol_price = .pnum q → q ≠ 0 →
          fuelqPetrolPPL station = .pnum (q * 100 - petrolDiscountFor station)) ∧
        (station.petrol_price = .pnull → fuelqPetrolPPL station = .pnull) ∧
        (station.petrol_price = .pnum 0 → fuelqPetrolPPL station = .pnull)) ∧
      fuelqPetrolPPL tescoCard = .pnum (1449 / 10) := by
  constructor
  · intro station
    refine ⟨rfl, fun d => rfl, ?_, ?_, ?_⟩
    · intro q hq hq0
      have h100 : q * 100 ≠ 0 := mul_ne_zero hq0 (by norm_num)
      simp [fuelqPetrolPPL, pumpPetrolPPL, parseFloatPrim, ofParse, truthyPrim, hq,
        bne_iff_ne, hq0, h100]
    · intro hq
      simp [fuelqPetrolPPL, pumpPetrolPPL, truthyPrim, hq]
    · intro hq
      simp [fuelqPetrolPPL, pumpPetrolPPL, truthyPrim, hq]
  · exact of_decide_eq_true (by with_unfolding_all rfl)

/-- C1 witness: the universal part of `station_card_pricing` applied to the
concrete TESCO card. -/
theorem station_card_pricing_witness :
    tescoCard.petrol_price = Prim.pnum (1459 / 1000) ∧
      fuelqPetrolPPL tescoCard = .pnum ((1459 / 1000) * 100 - petrolDiscountFor tescoCard) :=
  ⟨rfl, (station_card_pricing.1 tescoCard).2.2.1 (1459 / 1000) rfl (by norm_num)⟩

/-- C1 counterexample: a TESCO card with pump petrol price exactly 0 — the
price exists (non-null) but the card shows null, not `0 * 100 - discount`. -/
theorem station_card_pricing_cex :
    tescoZeroCard.petrol_price = Prim.pnum 0 ∧
      fuelqPetrolPPL tescoZeroCard = Prim.pnull ∧
      Prim.pnull ≠ Prim.pnum (0 * 100 - petrolDiscountFor tescoZeroCard) :=
  ⟨rfl, by with_unfolding_all rfl, fun h => Prim.noConfusion h⟩

/-- C4: every canonical station returned by the normalizer has at least one
non-null price slot (the retention gate requires a truthy slot, and truthy
slots are non-null); equivalently, a record whose three extracted prices are
all null is never retained. -/
theorem normalizer_output_has_price {data : JValue} {r t : String} {s : Station}
    (h : s ∈ parseStationData data r t) :
    ¬(s.petrol_price = Prim.pnull ∧ s.diesel_price = Prim.pnull ∧
      s.super_price = Prim.pnull) := by
  rintro ⟨h1, h2, h3⟩
  have hr := retain_of_mem_parseStationData h
  simp [retainStation, h1, h2, h3, truthyPrim] at hr

/-- C4 witness: the invariant applied to the station parsed from a concrete
one-record diesel payload. -/
theorem normalizer_output_has_price_witness :
    stationC4 ∈ parseStationData payloadC4 ("Esso") ("T") ∧
      ¬(stationC4.petrol_price = Prim.pnull ∧ stationC4.diesel_price = Prim.pnull ∧
        stationC4.super_price = Prim.pnull) := by
  have hmem : stationC4 ∈ parseStationData payloadC4 ("Esso") ("T") := by
    have he : parseStationData payloadC4 ("Esso") ("T") = [stationC4] := by
      with_unfolding_all rfl
    rw [he]
    exact List.mem_singleton.mpr rfl
  exact ⟨hmem, normalizer_output_has_price hmem⟩

/-- C9: the normalizer is total (modelled by returning a plain list for every
payload, the catch boundary of the source); when record-list discovery finds
nothing (the discovered list is the initial empty array) it yields zero
records for any retailer; and a malformed (null) record is skipped without
aborting the batch: the two-record batch whose first record is null yields
exactly the good second record. -/
theorem normalizer_fails_soft :
    (∀ (data : JValue) (r t : String), discoverStationArray data = .jarr [] →
      parseStationData data r t = []) ∧
      parseStationData batchC9 ("Jet") ("T") = [stationC9] := by
  constructor
  · intro data r t hd
    cases data
    case jnull => simp [parseStationData]
    all_goals
      simp [parseStationData, hd, parseRecordsList]
  · with_unfolding_all rfl

/-- C9 witness: the soft-failure theorem applied to a concrete unrecognized
payload. -/
theorem normalizer_fails_soft_witness :
    discoverStationArray unrecognizedPayload = .jarr [] ∧
      parseStationData unrecognizedPayload ("Applegreen") ("T") = [] :=
  ⟨by with_unfolding_all rfl,
    normalizer_fails_soft.1 unrecognizedPayload ("Applegreen") ("T")
      (by with_unfolding_all rfl)⟩

/-- Erasing the timestamp leaves the live-pricing flag unchanged. -/
theorem clearTimestamp_hasLivePricing (s : RStation) :
    (clearTimestamp s).hasLivePricing = s.hasLivePricing := rfl

/-- Filtering on the live-pricing flag is unaffected by erasing timestamps. -/
theorem length_filter_live_map_clearTimestamp (m : List RStation) :
    ((m.map clearTimestamp).filter (fun s => s.hasLivePricing == true)).length
      = (m.filter (fun s => s.hasLivePricing == true)).length := by
  induction m with
  | nil => rfl
  | cons a as ih =>
    simp only [beq_true] at ih ⊢
    by_cases hp : a.hasLivePricing = true
    · simp [List.filter_cons, clearTimestamp_hasLivePricing, hp, ih]
    · simp [List.filter_cons, clearTimestamp_hasLivePricing, hp, ih]

/-- C2 (amended): the matching engine is deterministic up to the
`last_updated` stamp that synthesized entries take from the clock: for any
two clock readings over identical inputs, the unmatched lists and the live
counts coincide, and the matched lists coincide once the timestamp field is
erased.  With one fixed clock reading runs are literally identical. -/
theorem matching_deterministic_up_to_timestamp (t1 t2 : String)
    (live : List Station) (sites : List Site) (avg : Option Averages) :
    (matchStationsWithUKFuels t1 live sites avg).unmatched
        = (matchStationsWithUKFuels t2 live sites avg).unmatched ∧
      (matchStationsWithUKFuels t1 live sites avg).liveCount
        = (matchStationsWithUKFuels t2 live sites avg).liveCount ∧
      (matchStationsWithUKFuels t1 live sites avg).matched.map clearTimestamp
        = (matchStationsWithUKFuels t2 live sites avg).matched.map clearTimestamp := by
  have hmap : (matchStationsWithUKFuels t1 live sites avg).matched.map clearTimestamp
      = (matchStationsWithUKFuels t2 live sites avg).matched.map clearTimestamp := by
    simp only [matchStationsWithUKFuels, List.map_append, List.map_map]
    have hcomp : clearTimestamp ∘ synthStation t1 avg
        = clearTimestamp ∘ synthStation t2 avg := funext fun s => rfl
    rw [hcomp]
  have hcount : ∀ t : String,
      (matchStationsWithUKFuels t live sites avg).liveCount
        = (((matchStationsWithUKFuels t live sites avg).matched.map clearTimestamp).filter
            (fun s => s.hasLivePricing == true)).length := by
    intro t
    rw [length_filter_live_map_clearTimestamp]
    rfl
  refine ⟨rfl, ?_, hmap⟩
  rw [hcount t1, hcount t2, hmap]

/-- C2 counterexample: two engine runs over identical inputs at different
clock readings give different matched lists — the synthesized entry is
stamped with the run time, so matching is not a function of the live and
directory inputs alone. -/
theorem matching_depends_on_clock :
    (matchStationsWithUKFuels tsA [] [bpSiteC2] none).matched.map RStation.last_updated
        = [some (JValue.jstr tsA)] ∧
      (matchStationsWithUKFuels tsB [] [bpSiteC2] none).matched.map RStation.last_updated
        = [some (JValue.jstr tsB)] ∧
      (matchStationsWithUKFuels tsA [] [bpSiteC2] none).matched
        ≠ (matchStationsWithUKFuels tsB [] [bpSiteC2] none).matched := by
  have e1 : (matchStationsWithUKFuels tsA [] [bpSiteC2] none).matched.map RStation.last_updated
      = [some (JValue.jstr tsA)] := by with_unfolding_all rfl
  have e2 : (matchStationsWithUKFuels tsB [] [bpSiteC2] none).matched.map RStation.last_updated
      = [some (JValue.jstr tsB)] := by with_unfolding_all rfl
  refine ⟨e1, e2, fun h => ?_⟩
  have h2 := congrArg (List.map RStation.last_updated) h
  have h3 := e1.symm.trans (h2.trans e2)
  injection h3 with h4 h5
  injection h4 with h6
  injection h6 with h7
  exact absurd h7 (by decide)

/-- C5: the matched output is exactly the merged live entries followed, in
directory order, by the synthesized entries of the unclaimed sites whose
petrol or diesel capability flag is set — so an unclaimed site is synthesized
into the matched output if and only if one of the flags holds, and a site
with both flags false never appears as a synthesized entry; every synthesized
entry has `hasLivePricing = false` and carries the supplied (truthy)
national-average petrol and diesel prices. -/
theorem unmatched_sites_synthesized (now : String) (live : List Station)
    (sites : List Site) (avgP avgD : Prim)
    (hp : truthyPrim avgP = true) (hd : truthyPrim avgD = true) :
    (matchStationsWithUKFuels now live sites (some ⟨avgP, avgD⟩)).matched
        = (processLive sites live).1 ++
          (sites.filter (fun s => !((claimedSiteNos live sites).contains s.siteNo) &&
            (s.petrol || s.diesel))).map (synthStation now (some ⟨avgP, avgD⟩)) ∧
      ∀ s : Site,
        (synthStation now (some ⟨avgP, avgD⟩) s).hasLivePricing = false ∧
        (synthStation now (some ⟨avgP, avgD⟩) s).petrol_price = avgP ∧
        (synthStation now (some ⟨avgP, avgD⟩) s).diesel_price = avgD := by
  refine ⟨rfl, fun s => ⟨rfl, ?_, ?_⟩⟩
  · simp [synthStation, jsOrNullPrim, hp]
  · simp [synthStation, jsOrNullPrim, hd]

/-- C5 witness: the synthesis description applied to a one-site directory
with no live stations and string averages. -/
theorem unmatched_sites_synthesized_witness :
    truthyPrim (Prim.pstr ("1.452")) = true ∧
      (synthStation ("T") (some ⟨Prim.pstr ("1.452"), Prim.pstr ("1.534")⟩)
          shellSiteC5).petrol_price = Prim.pstr ("1.452") :=
  ⟨by decide,
    ((unmatched_sites_synthesized ("T") [] [shellSiteC5] (Prim.pstr ("1.452"))
      (Prim.pstr ("1.534")) (by decide) (by decide)).2 shellSiteC5).2.1⟩

/-- C6: when the normalized postcode of a live station has a (necessarily
non-empty) entry in the postcode index, the match resolves by postcode alone:
a unique candidate is taken, and among several the first whose normalized
brand equals the station's, else the first candidate. -/
theorem postcode_match_priority (sites : List Site) (station : Station)
    (h1 : normalizeString station.postcode ≠ "")
    (h2 : postcodeCandidates sites (normalizeString station.postcode) ≠ []) :
    matchOneStation sites station
        = selectPostcodeMatch (normalizeString station.brand)
            (postcodeCandidates sites (normalizeString station.postcode)) ∧
      (∀ c, postcodeCandidates sites (normalizeString station.postcode) = [c] →
        matchOneStation sites station = some c) ∧
      (∀ c cs, postcodeCandidates sites (normalizeString station.postcode) = c :: cs →
        cs ≠ [] →
        matchOneStation sites station
          = some (((c :: cs).find? (fun k =>
              normalizeString k.brand == normalizeString station.brand)).getD c)) := by
  have hne : (normalizeString station.postcode != "") = true := bne_iff_ne.mpr h1
  have hmain : matchOneStation sites station
      = selectPostcodeMatch (normalizeString station.brand)
          (postcodeCandidates sites (normalizeString station.postcode)) := by
    simp only [matchOneStation, hne, if_true]
    cases hsel : selectPostcodeMatch (normalizeString station.brand)
        (postcodeCandidates sites (normalizeString station.postcode)) with
    | some site => rfl
    | none =>
      exfalso
      cases hc : postcodeCandidates sites (normalizeString station.postcode) with
      | nil => exact h2 hc
      | cons c cs =>
        rw [hc] at hsel
        cases cs <;> simp [selectPostcodeMatch] at hsel
  refine ⟨hmain, ?_, ?_⟩
  · intro c hc
    rw [hmain, hc]
    rfl
  · intro c cs hc hcs
    rw [hmain, hc]
    cases cs with
    | nil => exact absurd rfl hcs
    | cons c2 cs2 => rfl

/-- C6 witness: two sites share the postcode index entry and the one with the
station's brand is selected, by postcode alone. -/
theorem postcode_match_priority_witness :
    normalizeString stationC6.postcode ≠ "" ∧
      postcodeCandidates [essoSiteC6, shellSiteC6] (normalizeString stationC6.postcode) ≠ [] ∧
      matchOneStation [essoSiteC6, shellSiteC6] stationC6 = some shellSiteC6 := by
  have h1 : normalizeString stationC6.postcode ≠ "" := by decide
  have h2 : postcodeCandidates [essoSiteC6, shellSiteC6]
      (normalizeString stationC6.postcode) ≠ [] := by decide
  refine ⟨h1, h2, ?_⟩
  have h := (postcode_match_priority [essoSiteC6, shellSiteC6] stationC6 h1 h2).1
  rw [h]
  with_unfolding_all rfl

/-- C8: filtering a non-empty displayed list with the empty query keeps the
whole set — the result is a permutation of the input annotated with the fresh
haversine distance (Earth radius 6371 km, over the abstract math primitives)
from the reference location, it is sorted ascending by that distance, and
every output record carries exactly the distance computed from its own
coordinates. -/
theorem empty_query_filter_roundtrip (M : GeoModel) (loc : UserLocation)
    (stations : List RStation) (hne : stations ≠ []) :
    (filterAndSortStations M loc ("") stations).Perm
        (stations.map (annotateDistance M loc)) ∧
      List.Sorted (fun a b : RStation => a.distance.getD 0 ≤ b.distance.getD 0)
        (filterAndSortStations M loc ("") stations) ∧
      ∀ s ∈ filterAndSortStations M loc ("") stations,
        s.distance = some (calculateDistance M loc.latitude loc.longitude
          s.latitude s.longitude) := by
  have hres : filterAndSortStations M loc ("") stations
      = (stations.map (annotateDistance M loc)).mergeSort distLE := by
    simp [filterAndSortStations, sortStationsByDistance, List.length_pos.mpr hne]
  have htrans : ∀ a b c : RStation, distLE a b → distLE b c → distLE a c := by
    intro a b c hab hbc
    simp only [distLE, decide_eq_true_eq] at hab hbc ⊢
    exact le_trans hab hbc
  have htotal : ∀ a b : RStation, distLE a b || distLE b a := by
    intro a b
    simp only [distLE, Bool.or_eq_true, decide_eq_true_eq]
    exact le_total _ _
  refine ⟨?_, ?_, ?_⟩
  · rw [hres]
    exact List.mergeSort_perm _ _
  · rw [hres]
    exact (List.sorted_mergeSort htrans htotal _).imp
      (fun hab => by simpa [distLE, decide_eq_true_eq] using hab)
  · intro s hs
    rw [hres] at hs
    have hs2 : s ∈ stations.map (annotateDistance M loc) := List.mem_mergeSort.mp hs
    obtain ⟨x, hx, rfl⟩ := List.mem_map.mp hs2
    simp [annotateDistance]

/-- C8 witness: the round-trip applied to a concrete one-station list under a
trivial math model. -/
theorem empty_query_filter_roundtrip_witness :
    ([rstC8] : List RStation) ≠ [] ∧
      ∀ s ∈ filterAndSortStations geoM0 loc0 ("") [rstC8],
        s.distance = some (calculateDistance geoM0 loc0.latitude loc0.longitude
          s.latitude s.longitude) :=
  ⟨by simp, (empty_query_filter_roundtrip geoM0 loc0 [rstC8] (by simp)).2.2⟩

end FuelQ
